import Mathlib

/-!
Verification of the go-role `UserRepository` (src/repositories/userRepository.go).

The repository manages two association tables, `user_roles` and
`user_permissions`, whose rows are (user_id, role_id) resp.
(user_id, permission_id) pairs; the primary key is the pair, so each table
is a finite set of pairs.  We embed the database state as two `Finset`s and
each repository operation as a pure function on that state.  The underlying
relational store can fail; each operation therefore takes explicit fault
flags saying which storage statement of that call fails, and a failed
statement applies nothing (a single SQL statement is atomic, and the
`Replace` operations run inside a transaction that rolls back on error).
-/

namespace GoRole

abbrev UserID := Nat
abbrev RoleID := Nat
abbrev PermissionID := Nat

/-- models.Role: identified by a numeric surrogate key (field `ID`). -/
structure Role where
  ID : RoleID
deriving DecidableEq, Repr

/-- models.Permission: identified by a numeric surrogate key (field `ID`). -/
structure Permission where
  ID : PermissionID
deriving DecidableEq, Repr

/-- Modelled from the spec: `collections.Role` (package `collections`, not
present under src/) is an ordinary slice-backed collection with stable
iteration; uniqueness is not enforced by the collection itself.
`Origin` returns the underlying slice. -/
structure RoleCollection where
  Origin : List Role
deriving DecidableEq, Repr

/-- Modelled from the spec: `collections.Role.IDs()` returns the list of the
role IDs of the collection, in iteration order. -/
def RoleCollection.IDs (c : RoleCollection) : List RoleID :=
  c.Origin.map Role.ID

/-- Modelled from the spec: `collections.Role.Len()` returns the number of
elements of the underlying slice (duplicates counted). -/
def RoleCollection.Len (c : RoleCollection) : Nat :=
  c.Origin.length

/-- Modelled from the spec: `collections.Permission`, same shape as
`collections.Role`. -/
structure PermissionCollection where
  Origin : List Permission
deriving DecidableEq, Repr

/-- Modelled from the spec: `collections.Permission.IDs()`. -/
def PermissionCollection.IDs (c : PermissionCollection) : List PermissionID :=
  c.Origin.map Permission.ID

/-- Modelled from the spec: `collections.Permission.Len()`. -/
def PermissionCollection.Len (c : PermissionCollection) : Nat :=
  c.Origin.length

/-- The database state: the `user_roles` and `user_permissions` tables
(pivot.UserRoles / pivot.UserPermissions rows, primary key the pair). -/
structure DB where
  user_roles : Finset (UserID × RoleID)
  user_permissions : Finset (UserID × PermissionID)
deriving DecidableEq

/-- The single error class of the store: a storage failure, surfaced
unchanged to the caller. -/
inductive StorageErr where
  | failure
deriving DecidableEq, Repr

/-- Fault flags for a `Replace` call: whether the delete statement fails and
whether the insert statement fails. -/
structure Faults where
  deleteFails : Bool
  insertFails : Bool
deriving DecidableEq, Repr

/-- Conflict-ignore insert (`clause.OnConflict{DoNothing: true}`): insert
each row, silently skipping rows already present. -/
def insertIgnore {α : Type} [DecidableEq α] (rows : List α) (t : Finset α) : Finset α :=
  rows.foldl (fun acc r => insert r acc) t

/-- The rows built by the loop in `AddRoles` / `ReplaceRoles` /
`RemoveRoles`: one (userID, role.ID) pair per collection element. -/
def rolePairs (userID : UserID) (roles : RoleCollection) : List (UserID × RoleID) :=
  roles.Origin.map (fun role => (userID, role.ID))

/-- The rows built by the loop in the permission-side mutators. -/
def permissionPairs (userID : UserID) (permissions : PermissionCollection) :
    List (UserID × PermissionID) :=
  permissions.Origin.map (fun permission => (userID, permission.ID))

/-- `AddRoles`: conflict-ignore insert of one row per collection element.
A failing insert statement applies nothing and surfaces the error. -/
def AddRoles (userID : UserID) (roles : RoleCollection) (fail : Bool) (db : DB) :
    Option StorageErr × DB :=
  if fail then (some .failure, db)
  else (none, { db with user_roles := insertIgnore (rolePairs userID roles) db.user_roles })

/-- `AddPermissions`: permission-side counterpart of `AddRoles`. -/
def AddPermissions (userID : UserID) (permissions : PermissionCollection) (fail : Bool)
    (db : DB) : Option StorageErr × DB :=
  if fail then (some .failure, db)
  else (none, { db with
    user_permissions := insertIgnore (permissionPairs userID permissions) db.user_permissions })

/-- `ReplaceRoles`: inside one transaction, delete every `user_roles` row of
the user, then conflict-ignore insert the new pairs.  If either statement
fails the transaction rolls back, leaving the prior state. -/
def ReplaceRoles (userID : UserID) (roles : RoleCollection) (f : Faults) (db : DB) :
    Option StorageErr × DB :=
  if f.deleteFails then (some .failure, db)
  else
    let afterDelete := db.user_roles.filter (fun p => p.1 ≠ userID)
    if f.insertFails then (some .failure, db)
    else (none, { db with user_roles := insertIgnore (rolePairs userID roles) afterDelete })

/-- `ReplacePermissions`: permission-side counterpart of `ReplaceRoles`. -/
def ReplacePermissions (userID : UserID) (permissions : PermissionCollection) (f : Faults)
    (db : DB) : Option StorageErr × DB :=
  if f.deleteFails then (some .failure, db)
  else
    let afterDelete := db.user_permissions.filter (fun p => p.1 ≠ userID)
    if f.insertFails then (some .failure, db)
    else (none, { db with
      user_permissions := insertIgnore (permissionPairs userID permissions) afterDelete })

/-- `RemoveRoles`: delete the rows whose primary key equals one of the built
(userID, role.ID) pairs; rows not present are simply not there to delete. -/
def RemoveRoles (userID : UserID) (roles : RoleCollection) (fail : Bool) (db : DB) :
    Option StorageErr × DB :=
  if fail then (some .failure, db)
  else (none, { db with user_roles := db.user_roles \ (rolePairs userID roles).toFinset })

/-- `RemovePermissions`: permission-side counterpart of `RemoveRoles`. -/
def RemovePermissions (userID : UserID) (permissions : PermissionCollection) (fail : Bool)
    (db : DB) : Option StorageErr × DB :=
  if fail then (some .failure, db)
  else (none, { db with
    user_permissions := db.user_permissions \ (permissionPairs userID permissions).toFinset })

/-- `ClearRoles`: delete every `user_roles` row whose user_id is the given
user. -/
def ClearRoles (userID : UserID) (fail : Bool) (db : DB) : Option StorageErr × DB :=
  if fail then (some .failure, db)
  else (none, { db with user_roles := db.user_roles.filter (fun p => p.1 ≠ userID) })

/-- `ClearPermissions`: delete every `user_permissions` row of the user. -/
def ClearPermissions (userID : UserID) (fail : Bool) (db : DB) : Option StorageErr × DB :=
  if fail then (some .failure, db)
  else (none, { db with
    user_permissions := db.user_permissions.filter (fun p => p.1 ≠ userID) })

/-- The count query over `user_roles`: number of rows with the given user_id
and role_id in the given list. -/
def countRoles (userID : UserID) (ids : List RoleID) (db : DB) : Nat :=
  (db.user_roles.filter (fun p => p.1 = userID ∧ p.2 ∈ ids)).card

/-- The count query over `user_permissions`. -/
def countPermissions (userID : UserID) (ids : List PermissionID) (db : DB) : Nat :=
  (db.user_permissions.filter (fun p => p.1 = userID ∧ p.2 ∈ ids)).card

/-- `HasRole`: `count > 0` where count is the number of rows with this
user_id and role_id.  On a storage failure the Go `count` variable keeps its
zero value and the boolean is computed from it, alongside the error. -/
def HasRole (userID : UserID) (role : Role) (fail : Bool) (db : DB) :
    Bool × Option StorageErr :=
  let count := if fail then 0 else countRoles userID [role.ID] db
  (decide (0 < count), if fail then some .failure else none)

/-- `HasAllRoles`: `roles.Len() == count` with count the number of rows with
this user_id and role_id in `roles.IDs()`. -/
def HasAllRoles (userID : UserID) (roles : RoleCollection) (fail : Bool) (db : DB) :
    Bool × Option StorageErr :=
  let count := if fail then 0 else countRoles userID roles.IDs db
  (decide (roles.Len = count), if fail then some .failure else none)

/-- `HasAnyRoles`: `count > 0` over the same count query as `HasAllRoles`. -/
def HasAnyRoles (userID : UserID) (roles : RoleCollection) (fail : Bool) (db : DB) :
    Bool × Option StorageErr :=
  let count := if fail then 0 else countRoles userID roles.IDs db
  (decide (0 < count), if fail then some .failure else none)

/-- `HasDirectPermission`: permission-side counterpart of `HasRole`. -/
def HasDirectPermission (userID : UserID) (permission : Permission) (fail : Bool) (db : DB) :
    Bool × Option StorageErr :=
  let count := if fail then 0 else countPermissions userID [permission.ID] db
  (decide (0 < count), if fail then some .failure else none)

/-- `HasAllDirectPermissions`: permission-side counterpart of `HasAllRoles`. -/
def HasAllDirectPermissions (userID : UserID) (permissions : PermissionCollection)
    (fail : Bool) (db : DB) : Bool × Option StorageErr :=
  let count := if fail then 0 else countPermissions userID permissions.IDs db
  (decide (permissions.Len = count), if fail then some .failure else none)

/-- `HasAnyDirectPermissions`: permission-side counterpart of `HasAnyRoles`. -/
def HasAnyDirectPermissions (userID : UserID) (permissions : PermissionCollection)
    (fail : Bool) (db : DB) : Bool × Option StorageErr :=
  let count := if fail then 0 else countPermissions userID permissions.IDs db
  (decide (0 < count), if fail then some .failure else none)

/-! Basic lemmas about the storage primitives. -/

theorem mem_insertIgnore {α : Type} [DecidableEq α] (rows : List α) (t : Finset α) (x : α) :
    x ∈ insertIgnore rows t ↔ x ∈ rows ∨ x ∈ t := by
  induction rows generalizing t with
  | nil => simp [insertIgnore]
  | cons r rs ih =>
      simp only [insertIgnore, List.foldl_cons] at *
      rw [ih (insert r t)]
      simp [Finset.mem_insert]
      tauto

theorem mem_rolePairs (userID : UserID) (roles : RoleCollection) (p : UserID × RoleID) :
    p ∈ rolePairs userID roles ↔ p.1 = userID ∧ p.2 ∈ roles.IDs := by
  simp only [rolePairs, RoleCollection.IDs, List.mem_map]
  constructor
  · rintro ⟨role, hrole, rfl⟩
    exact ⟨rfl, role, hrole, rfl⟩
  · rintro ⟨h1, role, hrole, h2⟩
    exact ⟨role, hrole, by cases p; simp_all⟩

theorem mem_permissionPairs (userID : UserID) (permissions : PermissionCollection)
    (p : UserID × PermissionID) :
    p ∈ permissionPairs userID permissions ↔ p.1 = userID ∧ p.2 ∈ permissions.IDs := by
  simp only [permissionPairs, PermissionCollection.IDs, List.mem_map]
  constructor
  · rintro ⟨permission, hp, rfl⟩
    exact ⟨rfl, permission, hp, rfl⟩
  · rintro ⟨h1, permission, hp, h2⟩
    exact ⟨permission, hp, by cases p; simp_all⟩

theorem insertIgnore_idem {α : Type} [DecidableEq α] (rows : List α) (t : Finset α) :
    insertIgnore rows (insertIgnore rows t) = insertIgnore rows t := by
  ext x
  simp [mem_insertIgnore]

theorem rolePairs_eq_map (userID : UserID) (roles : RoleCollection) :
    rolePairs userID roles = roles.IDs.map (fun i => (userID, i)) := by
  simp [rolePairs, RoleCollection.IDs, List.map_map, Function.comp]

/-! The claims. -/

/-- C1: if the insert step of `ReplacePermissions` fails after the delete
step succeeded, the transaction rolls back: the call surfaces the storage
error and the resulting state equals the pre-call state, so the user's
permission association set is the pre-call one (not empty); likewise for
`ReplaceRoles` on the role table. -/
theorem replace_insert_failure_rolls_back (userID : UserID)
    (permissions : PermissionCollection) (roles : RoleCollection) (db : DB) :
    ReplacePermissions userID permissions ⟨false, true⟩ db = (some .failure, db) ∧
    ReplaceRoles userID roles ⟨false, true⟩ db = (some .failure, db) :=
  ⟨rfl, rfl⟩

/-- C2: `ReplaceRoles R1` then `ReplaceRoles R2`, both succeeding, leaves the
user's role association set exactly the pairs of R2, so no element of
R1 \ R2 remains. -/
theorem ReplaceRoles_then_ReplaceRoles (userID : UserID) (r1 r2 : RoleCollection) (db : DB) :
    (ReplaceRoles userID r1 ⟨false, false⟩ db).1 = none ∧
    (ReplaceRoles userID r2 ⟨false, false⟩ (ReplaceRoles userID r1 ⟨false, false⟩ db).2).1
      = none ∧
    ((ReplaceRoles userID r2 ⟨false, false⟩
        (ReplaceRoles userID r1 ⟨false, false⟩ db).2).2).user_roles.filter
          (fun p => p.1 = userID) = (rolePairs userID r2).toFinset := by
  refine ⟨rfl, rfl, ?_⟩
  ext p
  simp only [ReplaceRoles, if_neg, Bool.false_eq_true, not_false_eq_true, if_false,
    Finset.mem_filter, mem_insertIgnore, List.mem_toFinset, mem_rolePairs]
  tauto

/-- C3: `HasAllRoles` with the empty collection returns true (and no error)
for every user and every database state, including a user with no role rows
at all: the matched count 0 equals the collection size 0. -/
theorem HasAllRoles_empty (userID : UserID) (db : DB) :
    HasAllRoles userID (RoleCollection.mk []) false db = (true, none) := by
  have hcount : countRoles userID (RoleCollection.IDs (RoleCollection.mk [])) db = 0 := by
    simp [countRoles, RoleCollection.IDs]
  simp [HasAllRoles, hcount, RoleCollection.Len]

/-- C5: `AddRoles` is idempotent: a second successive successful call returns
no error and leaves the association set exactly as after the first call, so
adding already-present pairs is an error-free no-op. -/
theorem AddRoles_idempotent (userID : UserID) (roles : RoleCollection) (db : DB) :
    AddRoles userID roles false ((AddRoles userID roles false db).2) =
      (none, (AddRoles userID roles false db).2) := by
  simp [AddRoles, insertIgnore_idem]

/-- C4 (amended): for a collection whose role IDs are pairwise distinct, a
successful `AddRoles` followed immediately by `HasAllRoles` on the same
collection returns true. -/
theorem AddRoles_then_HasAllRoles (userID : UserID) (roles : RoleCollection) (db : DB)
    (h : roles.IDs.Nodup) :
    (HasAllRoles userID roles false ((AddRoles userID roles false db).2)).1 = true := by
  have hfilter :
      ((AddRoles userID roles false db).2).user_roles.filter
        (fun p => p.1 = userID ∧ p.2 ∈ roles.IDs) = (rolePairs userID roles).toFinset := by
    ext p
    simp only [AddRoles, if_neg, Bool.false_eq_true, not_false_eq_true, if_false,
      Finset.mem_filter, mem_insertIgnore, List.mem_toFinset, mem_rolePairs]
    tauto
  have hnodup : (rolePairs userID roles).Nodup := by
    rw [rolePairs_eq_map]
    exact h.map (fun a b hab => by simpa using hab)
  have hcard : countRoles userID roles.IDs ((AddRoles userID roles false db).2)
      = roles.Len := by
    rw [countRoles, hfilter, List.toFinset_card_of_nodup hnodup, rolePairs_eq_map,
      List.length_map]
    simp [RoleCollection.IDs, RoleCollection.Len]
  simp [HasAllRoles, hcard]

/-- C4 witness: the amended theorem applied to the duplicate-free collection
[role 1, role 2] on the empty database. -/
theorem AddRoles_then_HasAllRoles_witness :
    (RoleCollection.mk [⟨1⟩, ⟨2⟩]).IDs.Nodup ∧
    (HasAllRoles 0 (RoleCollection.mk [⟨1⟩, ⟨2⟩]) false
      ((AddRoles 0 (RoleCollection.mk [⟨1⟩, ⟨2⟩]) false (DB.mk ∅ ∅)).2)).1 = true :=
  ⟨by decide, AddRoles_then_HasAllRoles 0 (RoleCollection.mk [⟨1⟩, ⟨2⟩]) (DB.mk ∅ ∅)
    (by decide)⟩

/-- C4 counterexample: with the duplicate-containing collection
[role 1, role 1] (duplicates are tolerated by the collection), a successful
`AddRoles` followed immediately by `HasAllRoles` on that same collection
returns false: the collection size is 2 but only one table row matches. -/
theorem AddRoles_then_HasAllRoles_dup_cex :
    (HasAllRoles 0 (RoleCollection.mk [⟨1⟩, ⟨1⟩]) false
      ((AddRoles 0 (RoleCollection.mk [⟨1⟩, ⟨1⟩]) false (DB.mk ∅ ∅)).2)).1 = false := by
  decide

/-- C6: for a non-empty collection and a successful query, `HasAnyRoles`
returns false iff no (userID, id) row with id in the collection exists, and
true iff at least one such row exists. -/
theorem HasAnyRoles_false_iff (userID : UserID) (roles : RoleCollection) (db : DB)
    (h : roles.Origin ≠ []) :
    ((HasAnyRoles userID roles false db).1 = false ↔
      ∀ id ∈ roles.IDs, (userID, id) ∉ db.user_roles) ∧
    ((HasAnyRoles userID roles false db).1 = true ↔
      ∃ id ∈ roles.IDs, (userID, id) ∈ db.user_roles) := by
  have key : 0 < countRoles userID roles.IDs db ↔
      ∃ id ∈ roles.IDs, (userID, id) ∈ db.user_roles := by
    rw [countRoles, Finset.card_pos]
    constructor
    · rintro ⟨p, hp⟩
      rw [Finset.mem_filter] at hp
      obtain ⟨hmem, h1, h2⟩ := hp
      exact ⟨p.2, h2, by cases p; simp_all⟩
    · rintro ⟨id, hid, hmem⟩
      exact ⟨(userID, id), Finset.mem_filter.mpr ⟨hmem, rfl, hid⟩⟩
  constructor
  · simp only [HasAnyRoles, if_neg, Bool.false_eq_true, not_false_eq_true, if_false,
      decide_eq_false_iff_not, key, not_exists]
    tauto
  · simp only [HasAnyRoles, if_neg, Bool.false_eq_true, not_false_eq_true, if_false,
      decide_eq_true_eq, key]

/-- C6 witness: the theorem applied to the non-empty collection [role 1] on
the empty database. -/
theorem HasAnyRoles_false_iff_witness :
    (RoleCollection.mk [⟨1⟩]).Origin ≠ [] ∧
    (((HasAnyRoles 0 (RoleCollection.mk [⟨1⟩]) false (DB.mk ∅ ∅)).1 = false ↔
      ∀ id ∈ (RoleCollection.mk [⟨1⟩]).IDs, (0, id) ∉ (DB.mk ∅ ∅).user_roles) ∧
    ((HasAnyRoles 0 (RoleCollection.mk [⟨1⟩]) false (DB.mk ∅ ∅)).1 = true ↔
      ∃ id ∈ (RoleCollection.mk [⟨1⟩]).IDs, (0, id) ∈ (DB.mk ∅ ∅).user_roles)) :=
  ⟨by decide, HasAnyRoles_false_iff 0 (RoleCollection.mk [⟨1⟩]) (DB.mk ∅ ∅) (by decide)⟩

/-- C7: a successful `RemoveRoles` returns no error, and its resulting
`user_roles` table holds exactly the prior rows outside {userID} × R: the
rows of {userID} × R are deleted, every other row (including the whole
permission table) is unchanged, and absent pairs are simply not there to
delete (no-op, no error). -/
theorem RemoveRoles_spec (userID : UserID) (roles : RoleCollection) (db : DB) :
    (RemoveRoles userID roles false db).1 = none ∧
    (∀ p : UserID × RoleID,
      p ∈ ((RemoveRoles userID roles false db).2).user_roles ↔
        p ∈ db.user_roles ∧ ¬(p.1 = userID ∧ p.2 ∈ roles.IDs)) ∧
    ((RemoveRoles userID roles false db).2).user_permissions = db.user_permissions := by
  refine ⟨rfl, ?_, rfl⟩
  intro p
  simp only [RemoveRoles, if_neg, Bool.false_eq_true, not_false_eq_true, if_false,
    Finset.mem_sdiff, List.mem_toFinset, mem_rolePairs]

/-- C8: after a successful `ClearRoles` no role row of the user remains, so
a successful `HasAnyRoles` with any non-empty collection returns false. -/
theorem ClearRoles_then_HasAnyRoles (userID : UserID) (roles : RoleCollection) (db : DB)
    (h : roles.Origin ≠ []) :
    ((ClearRoles userID false db).2).user_roles.filter (fun p => p.1 = userID) = ∅ ∧
    (HasAnyRoles userID roles false ((ClearRoles userID false db).2)).1 = false := by
  have hempty : ((ClearRoles userID false db).2).user_roles.filter
      (fun p => p.1 = userID) = ∅ := by
    ext p
    simp [ClearRoles, Finset.mem_filter]
  refine ⟨hempty, ?_⟩
  have hcount : countRoles userID roles.IDs ((ClearRoles userID false db).2) = 0 := by
    rw [countRoles, Finset.card_eq_zero]
    ext p
    simp [ClearRoles, Finset.mem_filter]
    tauto
  simp [HasAnyRoles, hcount]

/-- C8 witness: the theorem applied to the non-empty collection [role 1] on
a database where user 0 has role 1. -/
theorem ClearRoles_then_HasAnyRoles_witness :
    (RoleCollection.mk [⟨1⟩]).Origin ≠ [] ∧
    (((ClearRoles 0 false (DB.mk {(0, 1)} ∅)).2).user_roles.filter
      (fun p => p.1 = 0) = ∅ ∧
    (HasAnyRoles 0 (RoleCollection.mk [⟨1⟩]) false
      ((ClearRoles 0 false (DB.mk {(0, 1)} ∅)).2)).1 = false) :=
  ⟨by decide, ClearRoles_then_HasAnyRoles 0 (RoleCollection.mk [⟨1⟩])
    (DB.mk {(0, 1)} ∅) (by decide)⟩

/-- C9 counterexample: on a storage failure `HasAllRoles` with the empty
collection returns true alongside the error, not false: the Go `count`
variable keeps its zero value and `Len() == count` is `0 == 0`. -/
theorem query_error_HasAllRoles_empty_cex :
    HasAllRoles 0 (RoleCollection.mk []) true (DB.mk ∅ ∅) = (true, .some .failure) := by
  decide

/-- C9 (amended): on a storage failure every query surfaces the error and
returns the boolean computed from a zero count: false for `HasRole`,
`HasAnyRoles`, `HasDirectPermission` and `HasAnyDirectPermissions` on every
input, while `HasAllRoles` and `HasAllDirectPermissions` return true exactly
when the requested collection is empty and false otherwise. -/
theorem query_error_results (userID : UserID) (role : Role) (permission : Permission)
    (roles : RoleCollection) (permissions : PermissionCollection) (db : DB) :
    HasRole userID role true db = (false, .some .failure) ∧
    HasAnyRoles userID roles true db = (false, .some .failure) ∧
    (HasAllRoles userID roles true db).2 = .some .failure ∧
    ((HasAllRoles userID roles true db).1 = true ↔ roles.Origin = []) ∧
    HasDirectPermission userID permission true db = (false, .some .failure) ∧
    HasAnyDirectPermissions userID permissions true db = (false, .some .failure) ∧
    (HasAllDirectPermissions userID permissions true db).2 = .some .failure ∧
    ((HasAllDirectPermissions userID permissions true db).1 = true ↔
      permissions.Origin = []) := by
  refine ⟨rfl, rfl, rfl, ?_, rfl, rfl, rfl, ?_⟩
  · simp [HasAllRoles, RoleCollection.Len, List.length_eq_zero]
  · simp [HasAllDirectPermissions, PermissionCollection.Len, List.length_eq_zero]

/-! Frame lemmas: no mutator touches rows of another user or the other
table, whatever the fault outcome. -/

theorem filter_ne_insertIgnore {β : Type} [DecidableEq β] (u : Nat) (rows : List (Nat × β))
    (hrows : ∀ p ∈ rows, p.1 = u) (t : Finset (Nat × β)) :
    (insertIgnore rows t).filter (fun p => p.1 ≠ u) = t.filter (fun p => p.1 ≠ u) := by
  ext p
  simp only [Finset.mem_filter, mem_insertIgnore]
  constructor
  · rintro ⟨h | h, hne⟩
    · exact absurd (hrows p h) hne
    · exact ⟨h, hne⟩
  · rintro ⟨h, hne⟩
    exact ⟨Or.inr h, hne⟩

theorem filter_ne_sdiff {β : Type} [DecidableEq β] (u : Nat) (rows : List (Nat × β))
    (hrows : ∀ p ∈ rows, p.1 = u) (t : Finset (Nat × β)) :
    (t \ rows.toFinset).filter (fun p => p.1 ≠ u) = t.filter (fun p => p.1 ≠ u) := by
  ext p
  simp only [Finset.mem_filter, Finset.mem_sdiff, List.mem_toFinset]
  constructor
  · rintro ⟨⟨ht, _⟩, hne⟩
    exact ⟨ht, hne⟩
  · rintro ⟨ht, hne⟩
    exact ⟨⟨ht, fun hr => hne (hrows p hr)⟩, hne⟩

theorem filter_ne_filter_ne {β : Type} [DecidableEq β] (u : Nat) (t : Finset (Nat × β)) :
    (t.filter (fun p => p.1 ≠ u)).filter (fun p => p.1 ≠ u) =
      t.filter (fun p => p.1 ≠ u) := by
  ext p
  simp only [Finset.mem_filter]
  tauto

theorem rolePairs_fst (userID : UserID) (roles : RoleCollection) :
    ∀ p ∈ rolePairs userID roles, p.1 = userID :=
  fun p hp => ((mem_rolePairs userID roles p).1 hp).1

theorem permissionPairs_fst (userID : UserID) (permissions : PermissionCollection) :
    ∀ p ∈ permissionPairs userID permissions, p.1 = userID :=
  fun p hp => ((mem_permissionPairs userID permissions p).1 hp).1

theorem AddRoles_frame (userID : UserID) (roles : RoleCollection) (b : Bool) (db : DB) :
    ((AddRoles userID roles b db).2).user_roles.filter (fun p => p.1 ≠ userID) =
      db.user_roles.filter (fun p => p.1 ≠ userID) ∧
    ((AddRoles userID roles b db).2).user_permissions = db.user_permissions := by
  cases b
  · exact ⟨filter_ne_insertIgnore userID (rolePairs userID roles)
      (rolePairs_fst userID roles) db.user_roles, rfl⟩
  · exact ⟨rfl, rfl⟩

theorem ReplaceRoles_frame (userID : UserID) (roles : RoleCollection) (f : Faults)
    (db : DB) :
    ((ReplaceRoles userID roles f db).2).user_roles.filter (fun p => p.1 ≠ userID) =
      db.user_roles.filter (fun p => p.1 ≠ userID) ∧
    ((ReplaceRoles userID roles f db).2).user_permissions = db.user_permissions := by
  rcases f with ⟨fd, fi⟩
  cases fd
  · cases fi
    · exact ⟨(filter_ne_insertIgnore userID (rolePairs userID roles)
        (rolePairs_fst userID roles) _).trans (filter_ne_filter_ne userID db.user_roles),
        rfl⟩
    · exact ⟨rfl, rfl⟩
  · exact ⟨rfl, rfl⟩

theorem RemoveRoles_frame (userID : UserID) (roles : RoleCollection) (b : Bool) (db : DB) :
    ((RemoveRoles userID roles b db).2).user_roles.filter (fun p => p.1 ≠ userID) =
      db.user_roles.filter (fun p => p.1 ≠ userID) ∧
    ((RemoveRoles userID roles b db).2).user_permissions = db.user_permissions := by
  cases b
  · exact ⟨filter_ne_sdiff userID (rolePairs userID roles)
      (rolePairs_fst userID roles) db.user_roles, rfl⟩
  · exact ⟨rfl, rfl⟩

theorem ClearRoles_frame (userID : UserID) (b : Bool) (db : DB) :
    ((ClearRoles userID b db).2).user_roles.filter (fun p => p.1 ≠ userID) =
      db.user_roles.filter (fun p => p.1 ≠ userID) ∧
    ((ClearRoles userID b db).2).user_permissions = db.user_permissions := by
  cases b
  · exact ⟨filter_ne_filter_ne userID db.user_roles, rfl⟩
  · exact ⟨rfl, rfl⟩

theorem AddPermissions_frame (userID : UserID) (permissions : PermissionCollection)
    (b : Bool) (db : DB) :
    ((AddPermissions userID permissions b db).2).user_permissions.filter
      (fun p => p.1 ≠ userID) = db.user_permissions.filter (fun p => p.1 ≠ userID) ∧
    ((AddPermissions userID permissions b db).2).user_roles = db.user_roles := by
  cases b
  · exact ⟨filter_ne_insertIgnore userID (permissionPairs userID permissions)
      (permissionPairs_fst userID permissions) db.user_permissions, rfl⟩
  · exact ⟨rfl, rfl⟩

theorem ReplacePermissions_frame (userID : UserID) (permissions : PermissionCollection)
    (f : Faults) (db : DB) :
    ((ReplacePermissions userID permissions f db).2).user_permissions.filter
      (fun p => p.1 ≠ userID) = db.user_permissions.filter (fun p => p.1 ≠ userID) ∧
    ((ReplacePermissions userID permissions f db).2).user_roles = db.user_roles := by
  rcases f with ⟨fd, fi⟩
  cases fd
  · cases fi
    · exact ⟨(filter_ne_insertIgnore userID (permissionPairs userID permissions)
        (permissionPairs_fst userID permissions) _).trans
        (filter_ne_filter_ne userID db.user_permissions), rfl⟩
    · exact ⟨rfl, rfl⟩
  · exact ⟨rfl, rfl⟩

theorem RemovePermissions_frame (userID : UserID) (permissions : PermissionCollection)
    (b : Bool) (db : DB) :
    ((RemovePermissions userID permissions b db).2).user_permissions.filter
      (fun p => p.1 ≠ userID) = db.user_permissions.filter (fun p => p.1 ≠ userID) ∧
    ((RemovePermissions userID permissions b db).2).user_roles = db.user_roles := by
  cases b
  · exact ⟨filter_ne_sdiff userID (permissionPairs userID permissions)
      (permissionPairs_fst userID permissions) db.user_permissions, rfl⟩
  · exact ⟨rfl, rfl⟩

theorem ClearPermissions_frame (userID : UserID) (b : Bool) (db : DB) :
    ((ClearPermissions userID b db).2).user_permissions.filter
      (fun p => p.1 ≠ userID) = db.user_permissions.filter (fun p => p.1 ≠ userID) ∧
    ((ClearPermissions userID b db).2).user_roles = db.user_roles := by
  cases b
  · exact ⟨filter_ne_filter_ne userID db.user_permissions, rfl⟩
  · exact ⟨rfl, rfl⟩

/-- C10: every mutating operation called with user `userID`, under every
fault outcome (`b` or `f` covers success and each failure), leaves the
association rows of other users in its own table unchanged and leaves the
other association table entirely unchanged. -/
theorem mutators_frame (userID : UserID) (roles : RoleCollection)
    (permissions : PermissionCollection) (b : Bool) (f : Faults) (db : DB) :
    (((AddRoles userID roles b db).2).user_roles.filter (fun p => p.1 ≠ userID) =
        db.user_roles.filter (fun p => p.1 ≠ userID) ∧
      ((AddRoles userID roles b db).2).user_permissions = db.user_permissions) ∧
    (((ReplaceRoles userID roles f db).2).user_roles.filter (fun p => p.1 ≠ userID) =
        db.user_roles.filter (fun p => p.1 ≠ userID) ∧
      ((ReplaceRoles userID roles f db).2).user_permissions = db.user_permissions) ∧
    (((RemoveRoles userID roles b db).2).user_roles.filter (fun p => p.1 ≠ userID) =
        db.user_roles.filter (fun p => p.1 ≠ userID) ∧
      ((RemoveRoles userID roles b db).2).user_permissions = db.user_permissions) ∧
    (((ClearRoles userID b db).2).user_roles.filter (fun p => p.1 ≠ userID) =
        db.user_roles.filter (fun p => p.1 ≠ userID) ∧
      ((ClearRoles userID b db).2).user_permissions = db.user_permissions) ∧
    (((AddPermissions userID permissions b db).2).user_permissions.filter
        (fun p => p.1 ≠ userID) = db.user_permissions.filter (fun p => p.1 ≠ userID) ∧
      ((AddPermissions userID permissions b db).2).user_roles = db.user_roles) ∧
    (((ReplacePermissions userID permissions f db).2).user_permissions.filter
        (fun p => p.1 ≠ userID) = db.user_permissions.filter (fun p => p.1 ≠ userID) ∧
      ((ReplacePermissions userID permissions f db).2).user_roles = db.user_roles) ∧
    (((RemovePermissions userID permissions b db).2).user_permissions.filter
        (fun p => p.1 ≠ userID) = db.user_permissions.filter (fun p => p.1 ≠ userID) ∧
      ((RemovePermissions userID permissions b db).2).user_roles = db.user_roles) ∧
    (((ClearPermissions userID b db).2).user_permissions.filter
        (fun p => p.1 ≠ userID) = db.user_permissions.filter (fun p => p.1 ≠ userID) ∧
      ((ClearPermissions userID b db).2).user_roles = db.user_roles) :=
  ⟨AddRoles_frame userID roles b db, ReplaceRoles_frame userID roles f db,
    RemoveRoles_frame userID roles b db, ClearRoles_frame userID b db,
    AddPermissions_frame userID permissions b db,
    ReplacePermissions_frame userID permissions f db,
    RemovePermissions_frame userID permissions b db, ClearPermissions_frame userID b db⟩

end GoRole
